import Mathlib

/-!
Shallow embedding of the orchestration logic of the randomcarbon repository
(`analysis/generation.py`, `utils/symmetry.py`, `evolution/conditions/energy.py`)
together with proofs of its behavioural properties. External scientific
collaborators (pymatgen, spglib, pyxtal) enter as oracle parameters; machine
floats are embedded as rationals.
-/

namespace RandomCarbon

/-! Data model for `evolution/conditions/energy.py`. -/

/-- A pymatgen `Structure` as seen by `SmallEnergyAtoms.satisfied`: its number of
sites (`len(structure)`) and the optional cached `"energy"` property read by
`get_property(structure, "energy")`. -/
structure PyStructure where
  nsites : ℕ
  energyProp : Option ℚ
deriving Repr, DecidableEq

/-- Embedding of lines 33-36 of `SmallEnergyAtoms.satisfied`:
`e = get_property(structure, "energy"); if not e: e = get_energy(..., set_in_structure=True)`.
Python truthiness makes `not e` hold when the cached property is missing (None) or equal
to `0.0`. `computeEnergy` stands for the value the energy collaborator `get_energy` would
return. The result is the energy used by the criteria check, the structure after the call
(`set_in_structure=True` stores the computed energy on it), and whether `get_energy` was
invoked. -/
def resolveEnergy (computeEnergy : ℚ) (s : PyStructure) : ℚ × PyStructure × Bool :=
  match s.energyProp with
  | none => (computeEnergy, { s with energyProp := some computeEnergy }, true)
  | some e =>
    if e = 0 then (computeEnergy, { s with energyProp := some computeEnergy }, true)
    else (e, s, false)

/-- Embedding of the criteria loop of `SmallEnergyAtoms.satisfied` (lines 39-43):
iterate over `self.criteria.items()` and return `True` with a detail string at the first
entry with `nsites > n_threshold and e > e_threshold`, else `False` with the
"no condition satisfied" string. The dict is embedded as an association list in its
iteration order. -/
def criteriaCheck (criteria : List (ℕ × ℚ)) (nsites : ℕ) (e : ℚ) : Bool × String :=
  match criteria.find? (fun p => decide (p.1 < nsites) && decide (p.2 < e)) with
  | some _ =>
    (true, "SmallEnergyAtoms. nsites: " ++ toString nsites ++ ", energy: " ++ toString e)
  | none => (false, "SmallEnergyAtoms. no condition satisfied")

/-- Embedding of `SmallEnergyAtoms.satisfied`: resolve the energy (cached or freshly
computed), then run the criteria check on the structure's site count and that energy.
Returns the `(bool, reason)` pair of the source, together with the structure after the
call and whether the energy collaborator was invoked. -/
def SmallEnergyAtoms.satisfied (criteria : List (ℕ × ℚ)) (computeEnergy : ℚ)
    (s : PyStructure) : (Bool × String) × PyStructure × Bool :=
  let r := resolveEnergy computeEnergy s
  (criteriaCheck criteria s.nsites r.1, r.2)

/-! Embedding of `utils/symmetry.py`. -/

/-- Tolerance tried at attempt `i` of the primitive loop of `get_subgroup_structure`
(line 70): `symprec_sub = eps * 2**i / 16`. -/
def symprecSub (eps : ℚ) (i : ℕ) : ℚ := eps * 2 ^ i / 16

/-- Attempt indices of the primitive loop: `range(1, 9)`, i.e. `[1, ..., 8]`. -/
def primitiveAttempts : List ℕ := List.range' 1 8

/-- Embedding of `get_subgroup_structure` (symmetry.py lines 51-90), focused on its
control flow. The external symmetry toolkit enters as oracles: `initialSpgn` is the
space group pyxtal identifies for the seed structure (`c.group.number`); `subDetect t`
is the value of `SpacegroupAnalyzer(sub_struct, symprec=t).get_space_group_number()`,
with `none` modelling both a raised `ValueError` and a `None` result; `primDetect t` is
the detection on the primitive standard structure in the assert after a successful
attempt. `spgn` is the target subgroup number (already resolved from `c_sub` when the
caller passed `None`). The result pairs the outcome — an error message, or on success
the attempt index accepted by the primitive loop (`0` when `primitive` is false) — with
the number of symmetry computations started, counting the pyxtal seed analysis, the
subgroup derivation, and every `SpacegroupAnalyzer` detection. -/
def get_subgroup_structure (initialSpgn : ℕ) (subDetect primDetect : ℚ → Option ℕ)
    (spgn : ℕ) (eps : ℚ) (primitive : Bool) (expectedInitialSpgn : Option ℕ) :
    Except String ℕ × ℕ :=
  if primitive = true ∧ eps = 0 then
    (Except.error "to determine the primitive structure eps should be greater than 0", 0)
  else if expectedInitialSpgn ≠ none ∧ expectedInitialSpgn ≠ some initialSpgn then
    (Except.error "pyxtal identified a different space group. Try to tune the value of symprec.", 1)
  else if primitive then
    match primitiveAttempts.find? (fun i => subDetect (symprecSub eps i) == some spgn) with
    | some i =>
      if primDetect (symprecSub eps i) == some spgn then (Except.ok i, 2 + i + 1)
      else (Except.error "AssertionError", 2 + i + 1)
    | none =>
      (Except.error "Could not find a value of symprec that matches the original space group",
        2 + 8)
  else (Except.ok 0, 2 + 1)

/-- Embedding of `validate_subgroup` (symmetry.py lines 115-129). Oracles: `fit` is the
result of `StructureMatcher(...).fit(structure_orig, structure_sub)`; `sampleSpgn i` is
the space group detected for the i-th randomly synthesized sample
(`add_new_symmetrized_atom` followed by `SpacegroupAnalyzer`). The result pairs the
optional error string of the source with the number of samples synthesized. -/
def validate_subgroup (fit : Bool) (sampleSpgn : ℕ → ℕ) (subSpgn : ℕ) :
    Option String × ℕ :=
  if fit = false then (some "structures do not fit", 0)
  else
    match (List.range 10).find? (fun i => sampleSpgn i == subSpgn) with
    | some i => (none, i + 1)
    | none =>
      (some ("generated structures do not belong to the spacegroup " ++ toString subSpgn), 10)

/-- Shape of the nested dictionary built by `get_subgroups(..., recursive=True)`:
an insertion-ordered association list from each subgroup number to its own subtree. -/
inductive SubTree where
  | node : List (ℕ × SubTree) → SubTree

/-- Keys of the top level of a subgroup tree. -/
def SubTree.keys : SubTree → List ℕ
  | node l => l.map Prod.fst

/-- First-occurrence deduplication of a list, matching the effect of the
`if sg not in subgroups_dict` guard of `get_subgroups`: the dictionary keys are the
distinct elements of the subgroup list, in first-occurrence order. -/
def dedupKeepFirst : List ℕ → List ℕ
  | [] => []
  | x :: xs => x :: (dedupKeepFirst xs).filter (fun y => y ≠ x)

/-- Expansion of the children of one recursion level: every key is paired with the
subtree produced by the recursive call `f`; `none` propagates fuel exhaustion. -/
def gsChildren (f : ℕ → Option SubTree) : List ℕ → Option (List (ℕ × SubTree))
  | [] => some []
  | sg :: rest => do
    let t ← f sg
    let r ← gsChildren f rest
    pure ((sg, t) :: r)

/-- Embedding of the recursive branch of `get_subgroups` (symmetry.py lines 156-163)
with explicit fuel. `tbl g` is the flat list the pyxtal table reports for group `g`
(`group.get_max_t_subgroup()["subgroup"]` or `get_max_k_subgroup`). The Python
recursion has no fuel, so its call terminates exactly when some fuel suffices here;
`none` means the call tree reached the given depth without returning. -/
def gsTree (tbl : ℕ → List ℕ) : ℕ → ℕ → Option SubTree
  | 0, _ => none
  | fuel + 1, spgn =>
    (gsChildren (fun sg => gsTree tbl fuel sg) (dedupKeepFirst (tbl spgn))).map SubTree.node

/-- Termination of `get_subgroups(spgn, recursive=True)` over the table `tbl`. -/
def getSubgroupsTerminates (tbl : ℕ → List ℕ) (spgn : ℕ) : Prop :=
  ∃ fuel, (gsTree tbl fuel spgn).isSome = true

/-- Embedding of the non-recursive part of `get_subgroups` (symmetry.py lines 145-163):
dispatch on `group_type`, with the two pyxtal tables `tblT` and `tblK` as oracles; any
other relation type raises `ValueError`. -/
def get_subgroups_flat (tblT tblK : ℕ → List ℕ) (spgn : ℕ) (groupType : String) :
    Except String (List ℕ) :=
  if groupType = "t" then Except.ok (tblT spgn)
  else if groupType = "k" then Except.ok (tblK spgn)
  else Except.error "group_type should be either t or k"

/-! Embedding of `analysis/generation.py`. -/

/-- Result of one call `evolver.evolve(current)` inside `distribution_density`: a raised
exception (`Except.error`) or the returned list of structures, each structure embedded
as its list of fractional coordinates (`s.frac_coords`). An evolver returning `None`
behaves like the empty list under `if not new_s`. -/
abbrev EvolveResult (α : Type) := Except Unit (List (List α))

/-- Coordinates one loop iteration of `distribution_density` appends to `fcoords`
(generation.py lines 60-75): nothing on a caught exception or an empty result;
otherwise, for every returned structure, the coordinates after the first
`len(current)` sites when `current` is given (`s.frac_coords[len(current):]`), and all
coordinates otherwise. -/
def ddAttemptCoords {α : Type} (current : Option (List α)) (r : EvolveResult α) :
    List α :=
  match r with
  | Except.error _ => []
  | Except.ok [] => []
  | Except.ok ss =>
    match current with
    | some cur => (ss.map (fun s => s.drop cur.length)).flatten
    | none => ss.flatten

/-- Log records of the generation loop. -/
inductive LogEntry where
  | warningNoStructure : ℕ → LogEntry
  | warningError : ℕ → LogEntry
deriving Repr, DecidableEq

/-- Log records one loop iteration emits: `logger.warning(f"at iteration {i} no structure
was generated")` for an empty result, and the `logger.warning` carrying
`traceback.format_exc()` for a caught exception. -/
def ddAttemptLog {α : Type} (i : ℕ) (r : EvolveResult α) : List LogEntry :=
  match r with
  | Except.error _ => [LogEntry.warningError i]
  | Except.ok [] => [LogEntry.warningNoStructure i]
  | Except.ok _ => []

/-- The accumulator `fcoords` after the `n_generated` loop of `distribution_density`:
concatenation of every attempt's contribution, in attempt order. -/
def ddCoords {α : Type} (evolve : ℕ → EvolveResult α) (current : Option (List α))
    (n : ℕ) : List α :=
  (List.range n).flatMap (fun i => ddAttemptCoords current (evolve i))

/-- All log records emitted by the `n_generated` loop. -/
def ddLogs {α : Type} (evolve : ℕ → EvolveResult α) (n : ℕ) : List LogEntry :=
  (List.range n).flatMap (fun i => ddAttemptLog i (evolve i))

/-- The data the returned `Chgcar` is built from: whether the base structure is
`current` (else the template) and the accumulated trajectory; the density grid itself is
the external `ProbabilityDensityAnalysis`, a deterministic function of these. -/
structure DensityArtifact (α : Type) where
  baseIsCurrent : Bool
  trajectory : List α
deriving Repr, DecidableEq

/-- Embedding of `distribution_density` (generation.py lines 57-101) after the
generation loop. Building the single-atom placeholder structure reads `fcoords[0]`,
which raises `IndexError` when no coordinate was collected; otherwise the `Chgcar` is
built and `chgcar.write_file(filepath)` is called unconditionally — a `None` filepath
makes that call raise a `TypeError` instead of being skipped. On success the result
carries the artifact and whether a file was written. -/
def distribution_density {α : Type} (evolve : ℕ → EvolveResult α)
    (current : Option (List α)) (n : ℕ) (filepath : Option String) :
    Except String (DensityArtifact α × Bool) :=
  let fcoords := ddCoords evolve current n
  match fcoords with
  | [] => Except.error "IndexError: index 0 is out of bounds for axis 0 with size 0"
  | _ :: _ =>
    match filepath with
    | none => Except.error "TypeError: write_file does not accept a None path"
    | some _ => Except.ok ({ baseIsCurrent := current.isSome, trajectory := fcoords }, true)

/-! Helper lemmas. -/

/-- The criteria loop returns `True` exactly when some entry is strictly exceeded on
both thresholds. -/
theorem criteriaCheck_true_iff (criteria : List (ℕ × ℚ)) (nsites : ℕ) (e : ℚ) :
    (criteriaCheck criteria nsites e).1 = true ↔
      ∃ p ∈ criteria, p.1 < nsites ∧ p.2 < e := by
  unfold criteriaCheck
  cases h : criteria.find? (fun p => decide (p.1 < nsites) && decide (p.2 < e)) with
  | none =>
    simp only [Bool.false_eq_true, false_iff]
    rintro ⟨p, hp, h1, h2⟩
    have hnone := List.find?_eq_none.mp h p hp
    simp [h1, h2] at hnone
  | some p =>
    simp only [true_iff]
    refine ⟨p, List.mem_of_find?_eq_some h, ?_⟩
    have hc := List.find?_some h
    simpa using hc

/-- The reason string of the criteria loop is never empty. -/
theorem criteriaCheck_reason_ne (criteria : List (ℕ × ℚ)) (nsites : ℕ) (e : ℚ) :
    (criteriaCheck criteria nsites e).2 ≠ "" := by
  unfold criteriaCheck
  cases h : criteria.find? (fun p => decide (p.1 < nsites) && decide (p.2 < e)) with
  | none =>
    intro hc
    simp at hc
  | some p =>
    intro hc
    have hl := congrArg String.length hc
    simp [String.length_append] at hl
    exact absurd hl.1.1.1 (by decide)

/-! Claims about `SmallEnergyAtoms.satisfied`. -/

/-- C4: `SmallEnergyAtoms.satisfied` returns `True` iff at least one criteria entry has
its atom-count threshold strictly below the structure's atom count and its energy
threshold strictly below the structure's energy, always paired with a nonempty reason
string; the three documented examples for criteria `{100: -1.5, 200: -2.0}` evaluate as
specified. -/
theorem smallEnergyAtoms_satisfied_spec :
    (∀ (criteria : List (ℕ × ℚ)) (computeEnergy : ℚ) (s : PyStructure),
      ((SmallEnergyAtoms.satisfied criteria computeEnergy s).1.1 = true ↔
        ∃ p ∈ criteria, p.1 < s.nsites ∧ p.2 < (resolveEnergy computeEnergy s).1) ∧
      (SmallEnergyAtoms.satisfied criteria computeEnergy s).1.2 ≠ "") ∧
    (SmallEnergyAtoms.satisfied [(100, -3/2), (200, -2)] 0
      (PyStructure.mk 140 (some (-13/10)))).1.1 = true ∧
    (SmallEnergyAtoms.satisfied [(100, -3/2), (200, -2)] 0
      (PyStructure.mk 50 (some (-1/10)))).1.1 = false ∧
    (SmallEnergyAtoms.satisfied [(100, -3/2), (200, -2)] 0
      (PyStructure.mk 150 (some (-9/5)))).1.1 = false := by
  refine ⟨fun criteria computeEnergy s => ⟨?_, ?_⟩, ?_, ?_, ?_⟩
  · exact criteriaCheck_true_iff criteria s.nsites (resolveEnergy computeEnergy s).1
  · exact criteriaCheck_reason_ne criteria s.nsites (resolveEnergy computeEnergy s).1
  · norm_num [SmallEnergyAtoms.satisfied, resolveEnergy, criteriaCheck, List.find?]
  · norm_num [SmallEnergyAtoms.satisfied, resolveEnergy, criteriaCheck, List.find?]
  · norm_num [SmallEnergyAtoms.satisfied, resolveEnergy, criteriaCheck, List.find?]

/-- C4 witness: the first documented example, extracted from the specification
theorem. -/
theorem smallEnergyAtoms_satisfied_spec_witness :
    (SmallEnergyAtoms.satisfied [(100, -3/2), (200, -2)] 0
      (PyStructure.mk 140 (some (-13/10)))).1.1 = true :=
  smallEnergyAtoms_satisfied_spec.2.1

/-- C3 counterexample: a structure carrying the cached energy 0.0 has a cached value
present, yet the energy collaborator is invoked and its result stored — Python
truthiness (`if not e`) treats a cached 0.0 like a missing value. -/
theorem smallEnergyAtoms_cached_zero_recomputed :
    (PyStructure.mk 10 (some 0)).energyProp.isSome = true ∧
    (SmallEnergyAtoms.satisfied [] 5 (PyStructure.mk 10 (some 0))).2.2 = true ∧
    (SmallEnergyAtoms.satisfied [] 5 (PyStructure.mk 10 (some 0))).2.1.energyProp =
      some 5 := by
  refine ⟨rfl, ?_, ?_⟩ <;>
    simp [SmallEnergyAtoms.satisfied, resolveEnergy, criteriaCheck]

/-- C3 amended: `SmallEnergyAtoms.satisfied` skips the energy collaborator exactly when
the structure carries a cached nonzero energy, in which case the cached value is used
and the structure is unchanged; when the cached energy is missing or equal to 0.0 the
collaborator is invoked and its result cached onto the structure. -/
theorem smallEnergyAtoms_energy_caching (criteria : List (ℕ × ℚ)) (computeEnergy : ℚ)
    (s : PyStructure) :
    ((SmallEnergyAtoms.satisfied criteria computeEnergy s).2.2 = false ↔
      ∃ e, s.energyProp = some e ∧ e ≠ 0) ∧
    (∀ e, s.energyProp = some e → e ≠ 0 →
      SmallEnergyAtoms.satisfied criteria computeEnergy s =
        (criteriaCheck criteria s.nsites e, s, false)) ∧
    ((SmallEnergyAtoms.satisfied criteria computeEnergy s).2.2 = true →
      (SmallEnergyAtoms.satisfied criteria computeEnergy s).2.1.energyProp =
        some computeEnergy) := by
  obtain ⟨ns, prop⟩ := s
  cases prop with
  | none =>
    refine ⟨?_, ?_, ?_⟩
    · simp [SmallEnergyAtoms.satisfied, resolveEnergy]
    · intro e he _; simp at he
    · intro _; simp [SmallEnergyAtoms.satisfied, resolveEnergy]
  | some e =>
    by_cases he : e = 0
    · subst he
      refine ⟨?_, ?_, ?_⟩
      · simp [SmallEnergyAtoms.satisfied, resolveEnergy]
      · intro e' he' hne
        exact absurd (by simpa using he'.symm) hne
      · intro _; simp [SmallEnergyAtoms.satisfied, resolveEnergy]
    · refine ⟨?_, ?_, ?_⟩
      · simp only [SmallEnergyAtoms.satisfied, resolveEnergy, he, if_false]
        simp [he]
      · intro e' he' _
        have he'' : e = e' := by simpa using he'
        subst he''
        simp [SmallEnergyAtoms.satisfied, resolveEnergy, he]
      · intro hc
        simp [SmallEnergyAtoms.satisfied, resolveEnergy, he] at hc

/-- C3 amended, witness: at a structure cached with the nonzero energy 2, the condition
reads the cache: nothing is recomputed and the structure is returned unchanged. -/
theorem smallEnergyAtoms_energy_caching_witness :
    SmallEnergyAtoms.satisfied [] 1 (PyStructure.mk 1 (some 2)) =
      (criteriaCheck [] 1 2, PyStructure.mk 1 (some 2), false) :=
  (smallEnergyAtoms_energy_caching [] 1 (PyStructure.mk 1 (some 2))).2.1 2 rfl
    (by norm_num)

/-- First-match characterization of `find?` on an arithmetic range: a hit is inside the
range, satisfies the predicate, and every earlier index fails it. -/
theorem find?_range'_some (p : ℕ → Bool) :
    ∀ (n a i : ℕ), (List.range' a n).find? p = some i →
      p i = true ∧ a ≤ i ∧ i < a + n ∧ ∀ j, a ≤ j → j < i → p j = false := by
  intro n
  induction n with
  | zero => intro a i h; simp at h
  | succ m ih =>
    intro a i h
    rw [List.range'_succ] at h
    cases hpa : p a with
    | true =>
      rw [List.find?_cons_of_pos _ hpa] at h
      obtain rfl : a = i := by simpa using h
      exact ⟨hpa, le_refl a, by omega, fun j hj1 hj2 => absurd hj1 (by omega)⟩
    | false =>
      rw [List.find?_cons_of_neg _ (by simp [hpa])] at h
      obtain ⟨hp, hle, hlt, hmin⟩ := ih (a + 1) i h
      refine ⟨hp, by omega, by omega, fun j hj1 hj2 => ?_⟩
      rcases Nat.eq_or_lt_of_le hj1 with rfl | hlt2
      · exact hpa
      · exact hmin j (by omega) hj2

/-! Claims about `get_subgroup_structure` and `validate_subgroup`. -/

/-- C7: calling `get_subgroup_structure` with `primitive=True` and `eps` exactly `0.0`
raises the invalid-precondition `ValueError`, and no symmetry computation has been
started at that point: neither the pyxtal seed analysis, nor the subgroup derivation,
nor any space-group detection. -/
theorem get_subgroup_structure_eps_zero (initialSpgn : ℕ)
    (subDetect primDetect : ℚ → Option ℕ) (spgn : ℕ) (expected : Option ℕ) :
    get_subgroup_structure initialSpgn subDetect primDetect spgn 0 true expected =
      (Except.error "to determine the primitive structure eps should be greater than 0",
        0) := by
  simp [get_subgroup_structure]

/-- C7 witness at a fully concrete input. -/
theorem get_subgroup_structure_eps_zero_witness :
    get_subgroup_structure 1 (fun _ => none) (fun _ => none) 5 0 true none =
      (Except.error "to determine the primitive structure eps should be greater than 0",
        0) :=
  get_subgroup_structure_eps_zero 1 (fun _ => none) (fun _ => none) 5 none

/-- C1 counterexample: the tolerances tried by the primitive loop grow instead of
shrinking: at `eps = 1` the first tried tolerance is 1/8 and the second is 1/4 — twice
the first, not half of it. -/
theorem symprecSub_not_halved :
    symprecSub 1 1 = 1 / 8 ∧ symprecSub 1 2 = 1 / 4 ∧
      symprecSub 1 2 ≠ symprecSub 1 1 / 2 := by
  norm_num [symprecSub]

/-- C1 amended: the primitive branch tries exactly the 8 attempt indices 1..8, the
tolerance at attempt `i` is `eps * 2 ^ i / 16`, each tried tolerance is double (not
half) the previous one, and when none of the 8 attempts detects the target subgroup
number the call ends in the fatal search-exhausted error, after the 2 preliminary
symmetry computations and the 8 detections. -/
theorem get_subgroup_structure_primitive_search (initialSpgn : ℕ)
    (subDetect primDetect : ℚ → Option ℕ) (spgn : ℕ) (eps : ℚ) :
    primitiveAttempts = [1, 2, 3, 4, 5, 6, 7, 8] ∧
    (∀ i, symprecSub eps i = eps * 2 ^ i / 16) ∧
    (∀ i, symprecSub eps (i + 1) = 2 * symprecSub eps i) ∧
    (eps ≠ 0 → (∀ i ∈ primitiveAttempts, subDetect (symprecSub eps i) ≠ some spgn) →
      get_subgroup_structure initialSpgn subDetect primDetect spgn eps true none =
        (Except.error
            "Could not find a value of symprec that matches the original space group",
          2 + 8)) := by
  refine ⟨by decide, fun i => rfl, fun i => ?_, fun hne hall => ?_⟩
  · unfold symprecSub; ring
  · have hfind : primitiveAttempts.find?
        (fun i => subDetect (symprecSub eps i) == some spgn) = none := by
      refine List.find?_eq_none.mpr fun i hi => ?_
      simpa using hall i hi
    simp [get_subgroup_structure, hne, hfind]

/-- C1 amended, witness: with a detector that never returns the target, the call fails
with the search-exhausted error after the full budget. -/
theorem get_subgroup_structure_primitive_search_witness :
    get_subgroup_structure 1 (fun _ => none) (fun _ => none) 0 1 true none =
      (Except.error
          "Could not find a value of symprec that matches the original space group",
        2 + 8) :=
  (get_subgroup_structure_primitive_search 1 (fun _ => none) (fun _ => none) 0 1).2.2.2
    (by norm_num) (by intro i hi; simp)

/-- C8: `validate_subgroup` returns the mismatch reason with no sampling when the
structure matcher reports a mismatch; otherwise it synthesizes up to 10 samples,
stopping and succeeding (no error indicator) at the first whose detected space group is
the target, returns the descriptive failure reason after 10 mismatching samples, and
returns `none` only when the matcher fitted and some sample matched. -/
theorem validate_subgroup_spec (fit : Bool) (sampleSpgn : ℕ → ℕ) (subSpgn : ℕ) :
    (validate_subgroup false sampleSpgn subSpgn = (some "structures do not fit", 0)) ∧
    ((∃ i < 10, sampleSpgn i = subSpgn) →
      ∃ i < 10, sampleSpgn i = subSpgn ∧ (∀ j < i, sampleSpgn j ≠ subSpgn) ∧
        validate_subgroup true sampleSpgn subSpgn = (none, i + 1)) ∧
    ((∀ i < 10, sampleSpgn i ≠ subSpgn) →
      validate_subgroup true sampleSpgn subSpgn =
        (some ("generated structures do not belong to the spacegroup " ++
            toString subSpgn), 10)) ∧
    ((validate_subgroup fit sampleSpgn subSpgn).1 = none →
      fit = true ∧ ∃ i < 10, sampleSpgn i = subSpgn) := by
  have hnone : (∀ i < 10, sampleSpgn i ≠ subSpgn) →
      (List.range 10).find? (fun i => sampleSpgn i == subSpgn) = none := by
    intro hall
    refine List.find?_eq_none.mpr fun i hi => ?_
    simpa using hall i (List.mem_range.mp hi)
  have hsome : ∀ i, (List.range 10).find? (fun i => sampleSpgn i == subSpgn) = some i →
      i < 10 ∧ sampleSpgn i = subSpgn ∧ ∀ j < i, sampleSpgn j ≠ subSpgn := by
    intro i h
    rw [List.range_eq_range'] at h
    obtain ⟨hp, _, hlt, hmin⟩ := find?_range'_some _ 10 0 i h
    refine ⟨by omega, by simpa using hp, fun j hj => ?_⟩
    have := hmin j (Nat.zero_le j) hj
    simpa using this
  refine ⟨rfl, fun hex => ?_, fun hall => ?_, fun hok => ?_⟩
  · cases hfind : (List.range 10).find? (fun i => sampleSpgn i == subSpgn) with
    | none =>
      exfalso
      obtain ⟨i, hi, hp⟩ := hex
      have := List.find?_eq_none.mp hfind i (List.mem_range.mpr hi)
      simp [hp] at this
    | some i =>
      obtain ⟨hi, hp, hmin⟩ := hsome i hfind
      exact ⟨i, hi, hp, hmin, by simp [validate_subgroup, hfind]⟩
  · simp [validate_subgroup, hnone hall]
  · cases fit with
    | false => simp [validate_subgroup] at hok
    | true =>
      refine ⟨rfl, ?_⟩
      cases hfind : (List.range 10).find? (fun i => sampleSpgn i == subSpgn) with
      | none => simp [validate_subgroup, hfind] at hok
      | some i =>
        obtain ⟨hi, hp, _⟩ := hsome i hfind
        exact ⟨i, hi, hp⟩

/-- C8 witness: when no sample ever detects the target group, the result is the
descriptive failure reason after the 10 samples. -/
theorem validate_subgroup_spec_witness :
    validate_subgroup true (fun _ => 0) 75 =
      (some ("generated structures do not belong to the spacegroup " ++ toString 75),
        10) :=
  (validate_subgroup_spec true (fun _ => 0) 75).2.2.1 (by intro i hi; simp)

/-- Attempts contributing no coordinates can be dropped from the accumulation. -/
theorem flatMap_skip_nil {α : Type} (f : ℕ → List α) (k : ℕ) (hf : f k = []) :
    ∀ l : List ℕ, l.flatMap f = (l.filter (fun i => i != k)).flatMap f := by
  intro l
  induction l with
  | nil => rfl
  | cons x xs ih =>
    by_cases hx : x = k
    · subst hx
      simp only [List.flatMap_cons, hf, List.nil_append, List.filter_cons, bne_self_eq_false,
        Bool.false_eq_true, if_false]
      exact ih
    · simp only [List.flatMap_cons, List.filter_cons, bne_iff_ne, ne_eq, hx,
      not_false_eq_true, if_true]
      rw [ih]

/-- Counting: when every attempt contributes at most one coordinate, the accumulated
count plus the count of empty attempts is the attempt count. -/
theorem ddCoords_length_add {α : Type} (evolve : ℕ → EvolveResult α)
    (current : Option (List α)) :
    ∀ n, (∀ i < n, (ddAttemptCoords current (evolve i)).length ≤ 1) →
      (ddCoords evolve current n).length +
        ((List.range n).filter
          (fun i => (ddAttemptCoords current (evolve i)).isEmpty)).length = n := by
  intro n
  induction n with
  | zero => intro _; simp [ddCoords]
  | succ m ih =>
    intro h
    have hm := ih fun i hi => h i (by omega)
    have hsplit : ddCoords evolve current (m + 1)
        = ddCoords evolve current m ++ ddAttemptCoords current (evolve m) := by
      rw [ddCoords, ddCoords, List.range_succ, List.flatMap_append]
      simp
    have hfl : List.filter (fun i => (ddAttemptCoords current (evolve i)).isEmpty)
          (List.range (m + 1))
        = List.filter (fun i => (ddAttemptCoords current (evolve i)).isEmpty)
            (List.range m)
          ++ List.filter (fun i => (ddAttemptCoords current (evolve i)).isEmpty) [m] := by
      rw [List.range_succ, List.filter_append]
    rw [hsplit, List.length_append, hfl, List.length_append]
    cases hE : ddAttemptCoords current (evolve m) with
    | nil =>
      have hc : List.filter (fun i => (ddAttemptCoords current (evolve i)).isEmpty) [m]
          = [m] := by
        simp [List.filter_cons, hE]
      rw [hc]
      simp only [List.length_nil, List.length_cons]
      omega
    | cons c cs =>
      have h1 := h m (by omega)
      rw [hE] at h1
      have hc : List.filter (fun i => (ddAttemptCoords current (evolve i)).isEmpty) [m]
          = [] := by
        simp [List.filter_cons, hE]
      rw [hc]
      simp only [List.length_cons, List.length_nil] at h1 ⊢
      omega

/-! Claims about `distribution_density`. -/

/-- C5: when every successful attempt contributes exactly one coordinate, the
accumulator's length is the attempt count minus the number of attempts that contributed
nothing (failures and empty results), and never exceeds the attempt count; moreover
every accumulated coordinate comes from a returned structure — beyond the first
`len(current)` sites when `current` is given, anywhere in the structure otherwise. -/
theorem ddCoords_count_and_provenance {α : Type} (evolve : ℕ → EvolveResult α)
    (current : Option (List α)) (n : ℕ)
    (hone : ∀ i < n, ∀ ss, evolve i = Except.ok ss → ss ≠ [] →
      (ddAttemptCoords current (Except.ok ss)).length = 1) :
    (ddCoords evolve current n).length =
      n - ((List.range n).filter
        (fun i => (ddAttemptCoords current (evolve i)).isEmpty)).length ∧
    (ddCoords evolve current n).length ≤ n ∧
    (∀ (cur : List α) (r : EvolveResult α) (c : α), c ∈ ddAttemptCoords (some cur) r →
      ∃ ss, r = Except.ok ss ∧ ∃ s ∈ ss, c ∈ s.drop cur.length) ∧
    (∀ (r : EvolveResult α) (c : α), c ∈ ddAttemptCoords (none : Option (List α)) r →
      ∃ ss, r = Except.ok ss ∧ ∃ s ∈ ss, c ∈ s) := by
  have hle : ∀ i < n, (ddAttemptCoords current (evolve i)).length ≤ 1 := by
    intro i hi
    cases hr : evolve i with
    | error e => simp [ddAttemptCoords]
    | ok ss =>
      cases hss : ss with
      | nil => simp [ddAttemptCoords]
      | cons s rest =>
        rw [hone i hi (s :: rest) (by rw [hr, hss]) (by simp)]
  have hadd := ddCoords_length_add evolve current n hle
  refine ⟨by omega, by omega, fun cur r c hc => ?_, fun r c hc => ?_⟩
  · cases r with
    | error e => simp [ddAttemptCoords] at hc
    | ok ss =>
      cases ss with
      | nil => simp [ddAttemptCoords] at hc
      | cons s rest =>
        refine ⟨s :: rest, rfl, ?_⟩
        have hcf : c ∈ ((s :: rest).map (fun t => t.drop cur.length)).flatten := hc
        simp only [List.mem_flatten, List.mem_map] at hcf
        obtain ⟨l, ⟨s', hs', rfl⟩, hcl⟩ := hcf
        exact ⟨s', hs', hcl⟩
  · cases r with
    | error e => simp [ddAttemptCoords] at hc
    | ok ss =>
      cases ss with
      | nil => simp [ddAttemptCoords] at hc
      | cons s rest =>
        refine ⟨s :: rest, rfl, ?_⟩
        have hcf : c ∈ (s :: rest).flatten := hc
        simpa using List.mem_flatten.mp hcf

/-- C5 witness: two attempts, the first raising, the second returning one structure
with one atom: one accumulated coordinate, two minus one failure. -/
theorem ddCoords_count_witness :
    (ddCoords (fun i => if i = 0 then (Except.error () : EvolveResult ℕ)
      else Except.ok [[7]]) none 2).length =
      2 - ((List.range 2).filter
        (fun i => (ddAttemptCoords (none : Option (List ℕ))
          ((fun i => if i = 0 then (Except.error () : EvolveResult ℕ)
            else Except.ok [[7]]) i)).isEmpty)).length :=
  (ddCoords_count_and_provenance _ none 2 (by
    intro i hi ss hss hne
    interval_cases i
    · simp at hss
    · rw [show ss = [[7]] by simpa using hss.symm]
      rfl)).1

/-- C6: an attempt whose evolve call raises is logged with the error record, an attempt
returning no structures is logged with the no-structure warning, and in both cases the
loop completes with the accumulator equal to the concatenation of all the other
attempts' contributions — a single bad attempt never aborts the run nor perturbs the
rest. -/
theorem ddCoords_failure_isolated {α : Type} (evolve : ℕ → EvolveResult α)
    (current : Option (List α)) (n k : ℕ) (hk : k < n) :
    (evolve k = Except.error () → LogEntry.warningError k ∈ ddLogs evolve n) ∧
    (evolve k = Except.ok [] → LogEntry.warningNoStructure k ∈ ddLogs evolve n) ∧
    ((evolve k = Except.error () ∨ evolve k = Except.ok []) →
      ddCoords evolve current n =
        ((List.range n).filter (fun i => i != k)).flatMap
          (fun i => ddAttemptCoords current (evolve i))) := by
  refine ⟨fun he => ?_, fun he => ?_, fun hor => ?_⟩
  · rw [ddLogs]
    refine List.mem_flatMap.mpr ⟨k, List.mem_range.mpr hk, ?_⟩
    simp [ddAttemptLog, he]
  · rw [ddLogs]
    refine List.mem_flatMap.mpr ⟨k, List.mem_range.mpr hk, ?_⟩
    simp [ddAttemptLog, he]
  · have hnil : ddAttemptCoords current (evolve k) = [] := by
      rcases hor with h | h <;> rw [h] <;> rfl
    rw [ddCoords, flatMap_skip_nil _ k hnil]

/-- C6 witness: three attempts with the middle one raising; the accumulator equals the
contribution of the two good attempts. -/
theorem ddCoords_failure_isolated_witness :
    ddCoords (fun i => if i = 1 then (Except.error () : EvolveResult ℕ)
        else Except.ok [[3]]) none 3 =
      ((List.range 3).filter (fun i => i != 1)).flatMap
        (fun i => ddAttemptCoords (none : Option (List ℕ))
          ((fun i => if i = 1 then (Except.error () : EvolveResult ℕ)
            else Except.ok [[3]]) i)) :=
  (ddCoords_failure_isolated _ none 3 1 (by norm_num)).2.2 (Or.inl rfl)

/-- C2: contrary to the docstring ("If None, no file will be written"),
`distribution_density` calls `chgcar.write_file(filepath)` unconditionally; with
`filepath=None` that call raises instead of being skipped, so the Chgcar is never
returned. Evaluated at a run whose single attempt yields one structure with one atom. -/
theorem distribution_density_filepath_none :
    distribution_density (fun _ => (Except.ok [[0]] : EvolveResult ℕ)) none 1 none =
      Except.error "TypeError: write_file does not accept a None path" := rfl

/-- C10: when no coordinate was accumulated, `distribution_density` raises the
IndexError from reading `fcoords[0]` and never returns an artifact. -/
theorem distribution_density_empty_raises {α : Type} (evolve : ℕ → EvolveResult α)
    (current : Option (List α)) (n : ℕ) (filepath : Option String)
    (h : ddCoords evolve current n = []) :
    distribution_density evolve current n filepath =
      Except.error "IndexError: index 0 is out of bounds for axis 0 with size 0" := by
  simp only [distribution_density, h]

/-- C10 witness: every attempt raising, the call ends in the IndexError even though an
output path was supplied. -/
theorem distribution_density_empty_raises_witness :
    distribution_density (fun _ => (Except.error () : EvolveResult ℕ)) none 2
        (some "CHGCAR") =
      Except.error "IndexError: index 0 is out of bounds for axis 0 with size 0" :=
  distribution_density_empty_raises _ none 2 (some "CHGCAR") rfl

/-- Membership in the first-occurrence deduplication implies membership in the list. -/
theorem mem_dedupKeepFirst : ∀ (l : List ℕ) (x : ℕ), x ∈ dedupKeepFirst l → x ∈ l := by
  intro l
  induction l with
  | nil => intro x h; simp [dedupKeepFirst] at h
  | cons a as ih =>
    intro x h
    rw [dedupKeepFirst] at h
    rcases List.mem_cons.mp h with rfl | h2
    · exact List.mem_cons_self _ _
    · exact List.mem_cons_of_mem a (ih x (List.mem_of_mem_filter h2))

/-- The first-occurrence deduplication has no duplicate entries. -/
theorem dedupKeepFirst_nodup : ∀ l : List ℕ, (dedupKeepFirst l).Nodup := by
  intro l
  induction l with
  | nil => simp [dedupKeepFirst]
  | cons a as ih =>
    rw [dedupKeepFirst]
    refine List.nodup_cons.mpr ⟨?_, ih.filter _⟩
    intro hmem
    have := List.of_mem_filter hmem
    simp at this

/-- When every child's recursive expansion completes, the children list completes, its
keys are exactly the given list, and each key is paired with its own expansion. -/
theorem gsChildren_some (f : ℕ → Option SubTree) :
    ∀ l : List ℕ, (∀ sg ∈ l, (f sg).isSome = true) →
      ∃ m, gsChildren f l = some m ∧ m.map Prod.fst = l ∧
        ∀ p ∈ m, f p.1 = some p.2 := by
  intro l
  induction l with
  | nil => intro _; exact ⟨[], rfl, rfl, by simp⟩
  | cons sg rest ih =>
    intro h
    obtain ⟨t, ht⟩ := Option.isSome_iff_exists.mp (h sg (by simp))
    obtain ⟨m, hm, hkeys, hvals⟩ := ih fun x hx => h x (by simp [hx])
    refine ⟨(sg, t) :: m, ?_, by simp [hkeys], ?_⟩
    · simp [gsChildren, ht, hm]
    · intro p hp
      rcases List.mem_cons.mp hp with rfl | hp2
      · exact ht
      · exact hvals p hp2

/-- Under a strictly decreasing subgroup table, a recursion depth exceeding the group
number completes the recursive expansion. -/
theorem gsTree_isSome_of_lt (tbl : ℕ → List ℕ)
    (hdec : ∀ g sg, sg ∈ tbl g → sg < g) :
    ∀ fuel spgn, spgn < fuel → (gsTree tbl fuel spgn).isSome = true := by
  intro fuel
  induction fuel with
  | zero => intro spgn h; omega
  | succ m ih =>
    intro spgn h
    rw [gsTree]
    obtain ⟨mm, hmm, -, -⟩ := gsChildren_some (fun sg => gsTree tbl m sg)
      (dedupKeepFirst (tbl spgn))
      (fun sg hsg => ih sg (by
        have hsg2 := hdec spgn sg (mem_dedupKeepFirst _ sg hsg)
        omega))
    rw [hmm]
    rfl

/-! Claim about `get_subgroups`. -/

/-- C9 amended: a relation type outside {t, k} always raises the `ValueError`; the
non-recursive call returns the table's flat list; and whenever the subgroup table is
strictly decreasing in space-group number, the recursive call terminates and returns
the dictionary whose keys are exactly the unique elements of the flat list in
first-occurrence order, without duplicates, each key mapped to its own
recursively-expanded subgroup dictionary. Non-increasing descent alone (the case of
klassengleiche relations, where a group can be its own maximal subgroup) does not grant
termination. -/
theorem get_subgroups_spec (tblT tblK tbl : ℕ → List ℕ) (spgn : ℕ) (groupType : String)
    (hdec : ∀ g sg, sg ∈ tbl g → sg < g) :
    getSubgroupsTerminates tbl spgn ∧
    (groupType ≠ "t" → groupType ≠ "k" →
      get_subgroups_flat tblT tblK spgn groupType =
        Except.error "group_type should be either t or k") ∧
    (get_subgroups_flat tbl tblK spgn "t" = Except.ok (tbl spgn)) ∧
    (∃ l, gsTree tbl (spgn + 1) spgn = some (SubTree.node l) ∧
      l.map Prod.fst = dedupKeepFirst (tbl spgn) ∧
      (l.map Prod.fst).Nodup ∧
      ∀ p ∈ l, gsTree tbl spgn p.1 = some p.2) := by
  obtain ⟨m, hm, hkeys, hvals⟩ := gsChildren_some (fun sg => gsTree tbl spgn sg)
    (dedupKeepFirst (tbl spgn))
    (fun sg hsg => gsTree_isSome_of_lt tbl hdec spgn sg
      (hdec spgn sg (mem_dedupKeepFirst _ sg hsg)))
  have htree : gsTree tbl (spgn + 1) spgn = some (SubTree.node m) := by
    rw [gsTree, hm]
    rfl
  refine ⟨⟨spgn + 1, by rw [htree]; rfl⟩, ?_, ?_, m, htree, hkeys, ?_, hvals⟩
  · intro h1 h2
    simp [get_subgroups_flat, h1, h2]
  · simp [get_subgroups_flat]
  · rw [hkeys]
    exact dedupKeepFirst_nodup _

/-- C9 amended, witness: over the strictly decreasing table mapping each group to all
smaller numbers, the recursive expansion of group 2 terminates. -/
theorem get_subgroups_spec_witness :
    getSubgroupsTerminates (fun g => List.range g) 2 :=
  (get_subgroups_spec (fun g => List.range g) (fun g => List.range g)
    (fun g => List.range g) 2 "x" (fun _ _ h => List.mem_range.mp h)).1

/-- Divergence of the recursion over a self-referential table: no depth completes. -/
theorem gsTree_selfloop_none : ∀ fuel g, gsTree (fun h => [h]) fuel g = none := by
  intro fuel
  induction fuel with
  | zero => intro g; rfl
  | succ m ih =>
    intro g
    rw [gsTree]
    have hd : dedupKeepFirst [g] = [g] := rfl
    rw [hd]
    have hch : gsChildren (fun sg => gsTree (fun h => [h]) m sg) [g] = none := by
      simp [gsChildren, ih g]
    rw [hch]
    rfl

/-- C9 counterexample: the descent of the table mapping each group to itself is
non-increasing — the property the claim's termination argument rests on — and it is
exactly what klassengleiche relations produce for space group 1, whose maximal
k-subgroups are again of type P1; over it, `get_subgroups(1, recursive=True)` never
terminates: no recursion depth completes the expansion. -/
theorem get_subgroups_selfloop_diverges :
    (∀ g sg : ℕ, sg ∈ (fun h : ℕ => [h]) g → sg ≤ g) ∧
    ¬ getSubgroupsTerminates (fun h => [h]) 1 := by
  refine ⟨fun g sg h => by simp at h; omega, ?_⟩
  rintro ⟨fuel, hf⟩
  rw [gsTree_selfloop_none fuel 1] at hf
  simp at hf

end RandomCarbon
